import Mathlib

/-
A verification development for vine_cached_name.c (taskvine manager):
the cached-name generation policy for files, buffers, URLs, mini-task
outputs, empty directories and temporary artifacts, together with the
secondary file-identity function.

Byte strings are modeled as lists of characters.  The external
collaborators (checksum primitive, md5 hashing, task serialization,
random-token generation, and the header fetch) are modeled as explicit
parameters, following the collaborator interfaces they present to this
translation unit.
-/

set_option maxRecDepth 10000

namespace VineName

/-- Byte strings (C `char *` contents) are modeled as lists of characters. -/
abbrev Str := List Char

/-- Modelled from the spec: the external collaborator interfaces (the
checksum primitive `vine_checksum_any` from vine_checksum.c, the byte hash
`md5_buffer`/`md5_to_string` from md5.c, and the canonical task
serialization `vine_task_to_json` from vine_task.c are not among the given
sources).  `vine_checksum_any` returns `none` when the path does not exist
or cannot be read (the C function returns a NULL pointer); `md5_string` is
the composition of `md5_buffer` and `md5_to_string` on a byte string;
`vine_task_to_json` is the deterministic serialization of a task, with
tasks represented by an abstract index. -/
structure Collab where
  vine_checksum_any : Str → Option Str
  md5_string : Str → Str
  vine_task_to_json : Nat → Str

/-- The file types of struct vine_file that `vine_cached_name` handles.
The C default branch calls fatal() and is unreachable for this closed
enumeration. -/
inductive vine_file_type
  | VINE_FILE
  | VINE_EMPTY_DIR
  | VINE_MINI_TASK
  | VINE_URL
  | VINE_TEMP
  | VINE_BUFFER
deriving DecidableEq

/-- The fields of struct vine_file consumed by vine_cached_name.c:
`source` is the path, URL, or mini-task output name (a NULL pointer is
modeled as the empty string, matching the `f->source ? f->source : ""`
collapse in `vine_file_id`; the other naming paths are only reached with a
non-NULL source); `data` is the buffer contents (`none` when the buffer is
not yet populated, i.e. f->data == NULL), with f->size understood as the
length of the modeled contents; `mini_task` is an abstract task index
consumed only through `Collab.vine_task_to_json`; `cached_name` is the
memoized name (`none` before one has been produced). -/
structure vine_file where
  type : vine_file_type
  source : Str
  data : Option Str
  mini_task : Nat
  cached_name : Option Str
deriving DecidableEq

/-- The vine_url_cache_t enumeration of vine_cached_name.c. -/
inductive vine_url_cache_t
  | VINE_FOUND_NONE
  | VINE_FOUND_LAST_MODIFIED
  | VINE_FOUND_ETAG
  | VINE_FOUND_MD5
deriving DecidableEq

/-- The numeric value of the C enumeration constants, used by the
`val < VINE_FOUND_ETAG` and `val < VINE_FOUND_LAST_MODIFIED` guards. -/
def rank : vine_url_cache_t → Nat
  | .VINE_FOUND_NONE => 0
  | .VINE_FOUND_LAST_MODIFIED => 1
  | .VINE_FOUND_ETAG => 2
  | .VINE_FOUND_MD5 => 3

/-- White space as consumed by the sscanf whitespace directive and `%s`. -/
def isWsp (c : Char) : Bool :=
  c = ' ' || c = '\t' || c = '\n' || c = '\r' || c = '\x0b' || c = '\x0c'

/-- Outcome of one `sscanf(line, "<field> %s", tag)` call: `nomatch` when
the literal field text does not begin the line (return value 0, tag
untouched); `match_empty` when the line ends, possibly in white space,
right after the field text (sscanf returns EOF, which the C code treats as
true, and the tag buffer is left untouched); `match_tok t` when a
whitespace-delimited token follows the field text (return value 1, token
copied into the tag). -/
inductive scan_match
  | no_match
  | match_empty
  | match_tok (t : Str)
deriving DecidableEq

/-- Model of `sscanf(line, "<field> %s", tag)` for a literal field text:
the field must begin the line; the following white space is skipped; the
next maximal run of non-white characters is the token. -/
def sscanf_str (field line : Str) : scan_match :=
  if line.take field.length = field then
    match ((line.drop field.length).dropWhile isWsp).takeWhile (fun c => !isWsp c) with
    | [] => .match_empty
    | t => .match_tok t
  else .no_match

/-- The literal field texts scanned by get_url_properties. -/
def fContentMD5 : Str := "Content-MD5:".data

/-- Lowercase spelling of the content hash field. -/
def fcontentmd5 : Str := "content-md5:".data

/-- Canonical spelling of the entity tag field. -/
def fETag : Str := "ETag:".data

/-- Lowercase spelling of the entity tag field. -/
def fetag : Str := "etag:".data

/-- Canonical spelling of the last-modified field. -/
def fLastModified : Str := "Last-Modified:".data

/-- Lowercase spelling of the last-modified field. -/
def flastmodified : Str := "last-modified:".data

/-- One guarded header test
`if (val < FIELD && sscanf(line, "<field> %s", tag)) val = FIELD;`.
When the guard on the current value fails, short-circuit evaluation means
the sscanf is not executed at all, so the tag is untouched; when the guard
holds and the field matches, the value is upgraded and a matched token is
copied into the tag. -/
def apply_field (fv : vine_url_cache_t) (m : scan_match) (st : vine_url_cache_t × Str) :
    vine_url_cache_t × Str :=
  if rank st.1 < rank fv then
    match m with
    | .no_match => st
    | .match_empty => (fv, st.2)
    | .match_tok t => (fv, t)
  else st

/-- The body of the header-scanning loop of get_url_properties for one
line: the two Content-MD5 tests are unguarded and break out of the loop;
the ETag and Last-Modified tests (each in canonical and in all-lowercase
spelling, with the guard re-evaluated before each test) upgrade the value
in place.  Returns the new (value, tag) state and whether the loop breaks. -/
def scan_line (val : vine_url_cache_t) (tag : Str) (line : Str) :
    vine_url_cache_t × Str × Bool :=
  match sscanf_str fContentMD5 line with
  | .match_tok t => (.VINE_FOUND_MD5, t, true)
  | .match_empty => (.VINE_FOUND_MD5, tag, true)
  | .no_match =>
    match sscanf_str fcontentmd5 line with
    | .match_tok t => (.VINE_FOUND_MD5, t, true)
    | .match_empty => (.VINE_FOUND_MD5, tag, true)
    | .no_match =>
      let st1 := apply_field .VINE_FOUND_ETAG (sscanf_str fETag line) (val, tag)
      let st2 := apply_field .VINE_FOUND_ETAG (sscanf_str fetag line) st1
      let st3 := apply_field .VINE_FOUND_LAST_MODIFIED (sscanf_str fLastModified line) st2
      let st4 := apply_field .VINE_FOUND_LAST_MODIFIED (sscanf_str flastmodified line) st3
      (st4.1, st4.2, false)

/-- The fgets loop of get_url_properties over the fetched header lines. -/
def scan_headers : List Str → vine_url_cache_t → Str → vine_url_cache_t × Str
  | [], val, tag => (val, tag)
  | line :: rest, val, tag =>
    match scan_line val tag line with
    | (v, t, true) => (v, t)
    | (v, t, false) => scan_headers rest v t

/-- get_url_properties.  `headers` and `fetchOk` model the lines and the
completion status produced by the external header fetch (the curl child
process; popen itself failing is fatal and outside the model); `tag0` is
the arbitrary initial contents of the caller's uninitialized tag buffer.
A non-zero completion status resets the value to VINE_FOUND_NONE after the
scan, whatever was found.  The result is `none` only in the file:// branch
when the checksum primitive returns NULL: the C code passes that NULL
straight to strcpy without a check, which is undefined behavior. -/
def get_url_properties (C : Collab) (url : Str) (headers : List Str) (fetchOk : Bool)
    (tag0 : Str) : Option (vine_url_cache_t × Str) :=
  if url.take 7 = "file://".data then
    match C.vine_checksum_any (url.drop 7) with
    | some h => some (.VINE_FOUND_MD5, h)
    | none => none
  else
    match scan_headers headers .VINE_FOUND_NONE tag0 with
    | (val, tag) => if fetchOk then some (val, tag) else some (.VINE_FOUND_NONE, tag)

/-- string_format("%s-%s", a, b). -/
def fmt2 (a b : Str) : Str := a ++ '-' :: b

/-- make_url_cached_name: compose the method token with the hash selected
by get_url_properties (the server-reported hash is used verbatim; the ETag
and Last-Modified values are salted with the URL and hashed; with nothing
found, the URL alone is hashed). -/
def make_url_cached_name (C : Collab) (f : vine_file) (headers : List Str) (fetchOk : Bool)
    (tag0 : Str) : Option Str :=
  match get_url_properties C f.source headers fetchOk tag0 with
  | none => none
  | some (val, tag) =>
    match val with
    | .VINE_FOUND_NONE => some (fmt2 "md5-url".data (C.md5_string f.source))
    | .VINE_FOUND_LAST_MODIFIED => some (fmt2 "md5-lm".data (C.md5_string (fmt2 f.source tag)))
    | .VINE_FOUND_ETAG => some (fmt2 "md5-et".data (C.md5_string (fmt2 f.source tag)))
    | .VINE_FOUND_MD5 => some (fmt2 "md5-content".data tag)

/-- make_mini_task_cached_name: hash of the task serialization, a colon,
and the output name extracted from the task (f->source). -/
def make_mini_task_cached_name (C : Collab) (f : vine_file) : Str :=
  C.md5_string (C.vine_task_to_json f.mini_task ++ ':' :: f.source)

/-- vine_cached_name.  `cookie` models the 16-character random token drawn
by string_cookie for this call; `headers`, `fetchOk` and `tag0` are
threaded to the URL path as in get_url_properties.  The result is `none`
exactly in the undefined file:// case of get_url_properties; the fatal C
default branch is unreachable because vine_file_type is closed. -/
def vine_cached_name (C : Collab) (f : vine_file) (cookie : Str) (headers : List Str)
    (fetchOk : Bool) (tag0 : Str) : Option Str :=
  match f.type with
  | .VINE_FILE =>
    match C.vine_checksum_any f.source with
    | some h => some ("file-md5-".data ++ h)
    | none => some ("file-rnd-".data ++ cookie)
  | .VINE_EMPTY_DIR => some "empty".data
  | .VINE_MINI_TASK => some ("task-md5-".data ++ make_mini_task_cached_name C f)
  | .VINE_URL => (make_url_cached_name C f headers fetchOk tag0).map (fun h => "url-".data ++ h)
  | .VINE_TEMP => some ("temp-rnd-".data ++ cookie)
  | .VINE_BUFFER =>
    match f.data with
    | some d => some ("buffer-md5-".data ++ C.md5_string d)
    | none => some ("buffer-rnd-".data ++ cookie)

/-- vine_file_id: asserts that a cached name exists (the failed C assert
aborts the process, modeled as `none`) and hashes the cached name followed
by the source (a NULL source contributes the empty string). -/
def vine_file_id (C : Collab) (f : vine_file) : Option Str :=
  match f.cached_name with
  | some cn => some (C.md5_string (cn ++ f.source))
  | none => none

/-- Whether one header test fires at all on a line (a token or an empty
match, both of which the C condition treats as true). -/
def fires (field line : Str) : Bool :=
  match sscanf_str field line with
  | .no_match => false
  | _ => true

/-- The highest-priority field named by a single line, under the two
spellings of each field accepted by the code. -/
def line_rank (line : Str) : vine_url_cache_t :=
  if fires fContentMD5 line || fires fcontentmd5 line then .VINE_FOUND_MD5
  else if fires fETag line || fires fetag line then .VINE_FOUND_ETAG
  else if fires fLastModified line || fires flastmodified line then .VINE_FOUND_LAST_MODIFIED
  else .VINE_FOUND_NONE

/-- Priority maximum on the field enumeration. -/
def vmax (a b : vine_url_cache_t) : vine_url_cache_t :=
  if rank a ≤ rank b then b else a

/-- The highest-priority field present in a whole header sequence. -/
def headers_best (lines : List Str) : vine_url_cache_t :=
  lines.foldr (fun l acc => vmax (line_rank l) acc) .VINE_FOUND_NONE

/-- The method token emitted by make_url_cached_name for each found value. -/
def method_token : vine_url_cache_t → Str
  | .VINE_FOUND_NONE => "md5-url".data
  | .VINE_FOUND_LAST_MODIFIED => "md5-lm".data
  | .VINE_FOUND_ETAG => "md5-et".data
  | .VINE_FOUND_MD5 => "md5-content".data

/-- The three fallback branches of vine_cached_name that emit a random
cookie instead of a deterministic name: an unreadable or missing local
path, a temporary file, and a buffer whose contents are not yet present. -/
def randomized_path (C : Collab) (f : vine_file) : Prop :=
  (f.type = .VINE_FILE ∧ C.vine_checksum_any f.source = none) ∨
  f.type = .VINE_TEMP ∨
  (f.type = .VINE_BUFFER ∧ f.data = none)

/-- The scheme tokens that can begin a dashed cached name. -/
def scheme_tokens : List Str :=
  ["file-md5".data, "file-rnd".data, "task-md5".data,
   "url-md5-url".data, "url-md5-lm".data, "url-md5-et".data, "url-md5-content".data,
   "temp-rnd".data, "buffer-md5".data, "buffer-rnd".data]

/-- The source-family tokens, i.e. the text before the first dash of a
dashed cached name. -/
def family_tokens : List Str :=
  ["file".data, "task".data, "url".data, "temp".data, "buffer".data]

/-- Modelled from the spec: the cached name is computed once per descriptor
on first need and then stored immutably on it (section 5 idempotence; the
caching caller that owns the `cached_name` field lives in vine_file.c,
which is not among the given sources).  Returns the possibly-updated
descriptor together with the name. -/
def vine_file_get_cached_name (C : Collab) (f : vine_file) (cookie : Str)
    (headers : List Str) (fetchOk : Bool) (tag0 : Str) : vine_file × Option Str :=
  match f.cached_name with
  | some n => (f, some n)
  | none =>
    match vine_cached_name C f cookie headers fetchOk tag0 with
    | some n => ({ f with cached_name := some n }, some n)
    | none => (f, none)

/-- A concrete collaborator instance for witnesses and counterexamples:
the checksum succeeds exactly on the path "good", and the byte hash is an
explicit injective marker function. -/
def collabEx : Collab :=
  { vine_checksum_any := fun s => if s = "good".data then some ('c' :: s) else none
  , md5_string := fun s => 'h' :: s
  , vine_task_to_json := fun n => List.replicate n 'j' }

/-- A concrete URL-type file whose address is a remote URL. -/
def fileUrlEx : vine_file :=
  { type := .VINE_URL, source := "http://a".data, data := none, mini_task := 0, cached_name := none }

/-- A concrete URL-type file whose address is a file:// URL over a
readable path. -/
def fileUrlFileEx : vine_file :=
  { type := .VINE_URL, source := "file://good".data, data := none, mini_task := 0, cached_name := none }

/-- A concrete URL-type file whose address is a file:// URL over an
unreadable path. -/
def fileUrlBadEx : vine_file :=
  { type := .VINE_URL, source := "file://bad".data, data := none, mini_task := 0, cached_name := none }

/-- A concrete local file with a readable path. -/
def fileGoodEx : vine_file :=
  { type := .VINE_FILE, source := "good".data, data := none, mini_task := 0, cached_name := none }

/-- A concrete local file with an unreadable path. -/
def fileBadEx : vine_file :=
  { type := .VINE_FILE, source := "bad".data, data := none, mini_task := 0, cached_name := none }

/-- A concrete empty-directory file. -/
def fileEmptyEx : vine_file :=
  { type := .VINE_EMPTY_DIR, source := [], data := none, mini_task := 0, cached_name := none }

/-- A concrete temporary file. -/
def fileTempEx : vine_file :=
  { type := .VINE_TEMP, source := [], data := none, mini_task := 0, cached_name := none }

/-- The temporary-file descriptor after its first naming call stored the
randomized name drawn from the cookie R0123456789ABCDE. -/
def fileTempNamedEx : vine_file :=
  { type := .VINE_TEMP, source := [], data := none, mini_task := 0,
    cached_name := some "temp-rnd-R0123456789ABCDE".data }

/-- A concrete buffer file with contents present. -/
def fileBufEx : vine_file :=
  { type := .VINE_BUFFER, source := [], data := some "payload".data, mini_task := 0, cached_name := none }

/-- A concrete buffer file with no contents yet. -/
def fileBufNoneEx : vine_file :=
  { type := .VINE_BUFFER, source := [], data := none, mini_task := 0, cached_name := none }

/-- A concrete mini-task file. -/
def fileTaskEx : vine_file :=
  { type := .VINE_MINI_TASK, source := "out.txt".data, data := none, mini_task := 2, cached_name := none }

/-- A second mini-task file with the same task but another output name. -/
def fileTaskEx2 : vine_file :=
  { type := .VINE_MINI_TASK, source := "out2.txt".data, data := none, mini_task := 2, cached_name := none }

/-- A concrete file carrying an already-resolved cached name. -/
def fileNamedEx : vine_file :=
  { type := .VINE_FILE, source := "good".data, data := none, mini_task := 0,
    cached_name := some "file-md5-cgood".data }

/-- Taking an initial segment of an append that stays inside the left part. -/
theorem take_append_of_le (p a : Str) (k : Nat) (h : k ≤ p.length) :
    (p ++ a).take k = p.take k := by
  rw [List.take_append_eq_append_take, Nat.sub_eq_zero_of_le h, List.take_zero, List.append_nil]

/-- Two appends with distinguishable initial segments are different strings. -/
theorem ne_of_take_ne (p q a b : Str) (k : Nat) (h1 : k ≤ p.length) (h2 : k ≤ q.length)
    (hne : p.take k ≠ q.take k) : p ++ a ≠ q ++ b := by
  intro h
  apply hne
  rw [← take_append_of_le p a k h1, ← take_append_of_le q b k h2, h]

/-- Every enumeration value has rank at most three. -/
theorem rank_le_three (v : vine_url_cache_t) : rank v ≤ 3 := by
  cases v <;> simp [rank]

/-- vmax with the bottom element on the left. -/
theorem vmax_none (v : vine_url_cache_t) : vmax .VINE_FOUND_NONE v = v := by
  cases v <;> rfl

/-- vmax with the bottom element on the right. -/
theorem vmax_none_right (v : vine_url_cache_t) : vmax v .VINE_FOUND_NONE = v := by
  cases v <;> rfl

/-- vmax with the top element on the left. -/
theorem vmax_md5 (v : vine_url_cache_t) : vmax .VINE_FOUND_MD5 v = .VINE_FOUND_MD5 := by
  cases v <;> rfl

/-- vmax is commutative. -/
theorem vmax_comm (a b : vine_url_cache_t) : vmax a b = vmax b a := by
  cases a <;> cases b <;> rfl

/-- vmax is associative. -/
theorem vmax_assoc (a b c : vine_url_cache_t) : vmax a (vmax b c) = vmax (vmax a b) c := by
  cases a <;> cases b <;> cases c <;> rfl

/-- Reassociation of a four-fold vmax over a final argument. -/
theorem vmax4 (a b c d v : vine_url_cache_t) :
    vmax a (vmax b (vmax c (vmax d v))) = vmax (vmax a (vmax b (vmax c d))) v := by
  rw [vmax_assoc c d v, vmax_assoc b (vmax c d) v, vmax_assoc a (vmax b (vmax c d)) v]

/-- vmax keeps the strictly larger left argument. -/
theorem vmax_of_gt (a b : vine_url_cache_t) (h : rank b < rank a) : vmax a b = a := by
  unfold vmax
  rw [if_neg (by omega)]

/-- The right argument never exceeds the vmax. -/
theorem rank_le_vmax (a b : vine_url_cache_t) : rank b ≤ rank (vmax a b) := by
  unfold vmax
  split
  · exact Nat.le_refl _
  · omega

/-- A non-firing test leaves the state alone. -/
theorem apply_field_nomatch (fv : vine_url_cache_t) (st : vine_url_cache_t × Str) :
    apply_field fv .no_match st = st := by
  unfold apply_field
  split <;> rfl

/-- A test whose guard fails leaves the state alone (and, by
short-circuiting, never runs the scanf). -/
theorem apply_field_of_ge (fv : vine_url_cache_t) (m : scan_match) (st : vine_url_cache_t × Str)
    (h : rank fv ≤ rank st.1) : apply_field fv m st = st := by
  unfold apply_field
  rw [if_neg (by omega)]

/-- The value after one guarded test is the priority maximum of the state
value and the field value when the test fires. -/
theorem apply_field_fst (fv : vine_url_cache_t) (m : scan_match) (st : vine_url_cache_t × Str) :
    (apply_field fv m st).1 =
      vmax (match m with | .no_match => .VINE_FOUND_NONE | _ => fv) st.1 := by
  obtain ⟨v, t⟩ := st
  cases m <;> cases fv <;> cases v <;> simp [apply_field, vmax, rank]

/-- The value after scanning one line is the priority maximum of the line's
best field and the incoming value. -/
theorem scan_line_fst (val : vine_url_cache_t) (tag : Str) (line : Str) :
    (scan_line val tag line).1 = vmax (line_rank line) val := by
  rcases h1 : sscanf_str fContentMD5 line with _ | _ | t1
  case match_empty =>
    have hlr : line_rank line = .VINE_FOUND_MD5 := by simp [line_rank, fires, h1]
    simp [scan_line, h1, hlr, vmax_md5]
  case match_tok =>
    have hlr : line_rank line = .VINE_FOUND_MD5 := by simp [line_rank, fires, h1]
    simp [scan_line, h1, hlr, vmax_md5]
  case no_match =>
    rcases h2 : sscanf_str fcontentmd5 line with _ | _ | t2
    case match_empty =>
      have hlr : line_rank line = .VINE_FOUND_MD5 := by simp [line_rank, fires, h1, h2]
      simp [scan_line, h1, h2, hlr, vmax_md5]
    case match_tok =>
      have hlr : line_rank line = .VINE_FOUND_MD5 := by simp [line_rank, fires, h1, h2]
      simp [scan_line, h1, h2, hlr, vmax_md5]
    case no_match =>
      have hlr : line_rank line =
          vmax (match sscanf_str flastmodified line with
                | .no_match => .VINE_FOUND_NONE | _ => .VINE_FOUND_LAST_MODIFIED)
            (vmax (match sscanf_str fLastModified line with
                   | .no_match => .VINE_FOUND_NONE | _ => .VINE_FOUND_LAST_MODIFIED)
              (vmax (match sscanf_str fetag line with
                     | .no_match => .VINE_FOUND_NONE | _ => .VINE_FOUND_ETAG)
                (match sscanf_str fETag line with
                 | .no_match => .VINE_FOUND_NONE | _ => .VINE_FOUND_ETAG))) := by
        rcases h3 : sscanf_str fETag line <;> rcases h4 : sscanf_str fetag line <;>
          rcases h5 : sscanf_str fLastModified line <;> rcases h6 : sscanf_str flastmodified line <;>
            simp [line_rank, fires, h1, h2, h3, h4, h5, h6, vmax, rank]
      simp only [scan_line, h1, h2]
      rw [apply_field_fst, apply_field_fst, apply_field_fst, apply_field_fst]
      rw [vmax4, hlr]

/-- The loop breaks on a line exactly when the line names the content-hash
field in one of the two accepted spellings. -/
theorem scan_line_break (val : vine_url_cache_t) (tag : Str) (line : Str) :
    (scan_line val tag line).2.2 = true ↔ line_rank line = .VINE_FOUND_MD5 := by
  rcases h1 : sscanf_str fContentMD5 line with _ | _ | t1
  case match_empty => simp [scan_line, h1, line_rank, fires]
  case match_tok => simp [scan_line, h1, line_rank, fires]
  case no_match =>
    rcases h2 : sscanf_str fcontentmd5 line with _ | _ | t2
    case match_empty => simp [scan_line, h1, h2, line_rank, fires]
    case match_tok => simp [scan_line, h1, h2, line_rank, fires]
    case no_match =>
      have hne : line_rank line ≠ .VINE_FOUND_MD5 := by
        rw [line_rank, if_neg (by simp [fires, h1, h2])]
        split_ifs <;> simp
      simp [scan_line, h1, h2, hne]

/-- A test fires exactly when its sscanf result is a match of either kind. -/
theorem fires_true_iff (f l : Str) : fires f l = true ↔ sscanf_str f l ≠ .no_match := by
  rcases hx : sscanf_str f l <;> simp [fires, hx]

/-- A test does not fire exactly when its sscanf result is no match. -/
theorem not_fires_iff (f l : Str) : fires f l = false ↔ sscanf_str f l = .no_match := by
  rcases hx : sscanf_str f l <;> simp [fires, hx]

/-- A line whose best field is strictly below the current value changes
nothing: the lower-priority field is ignored outright. -/
theorem scan_line_lower (val : vine_url_cache_t) (tag : Str) (line : Str)
    (h : rank (line_rank line) < rank val) : scan_line val tag line = (val, tag, false) := by
  have hv3 := rank_le_three val
  have h1 : sscanf_str fContentMD5 line = .no_match := by
    rcases hh : sscanf_str fContentMD5 line with _ | _ | t
    · rfl
    all_goals
      exfalso
      have hm : line_rank line = .VINE_FOUND_MD5 := by
        rw [line_rank, if_pos]
        rw [(fires_true_iff fContentMD5 line).mpr (by rw [hh]; simp), Bool.true_or]
      rw [hm] at h
      have h3 : (3:Nat) < rank val := h
      omega
  have h2 : sscanf_str fcontentmd5 line = .no_match := by
    rcases hh : sscanf_str fcontentmd5 line with _ | _ | t
    · rfl
    all_goals
      exfalso
      have hm : line_rank line = .VINE_FOUND_MD5 := by
        rw [line_rank, if_pos]
        rw [(fires_true_iff fcontentmd5 line).mpr (by rw [hh]; simp), Bool.or_true]
      rw [hm] at h
      have h3 : (3:Nat) < rank val := h
      omega
  have hmd5f : ¬((fires fContentMD5 line || fires fcontentmd5 line) = true) := by
    rw [(not_fires_iff fContentMD5 line).mpr h1, (not_fires_iff fcontentmd5 line).mpr h2]
    simp
  have hE1 : apply_field .VINE_FOUND_ETAG (sscanf_str fETag line) (val, tag) = (val, tag) := by
    rcases hh : sscanf_str fETag line with _ | _ | t
    · exact apply_field_nomatch _ _
    all_goals
      have hm : line_rank line = .VINE_FOUND_ETAG := by
        rw [line_rank, if_neg hmd5f, if_pos]
        rw [(fires_true_iff fETag line).mpr (by rw [hh]; simp), Bool.true_or]
      rw [hm] at h
      exact apply_field_of_ge _ _ _ (Nat.le_of_lt h)
  have hE2 : apply_field .VINE_FOUND_ETAG (sscanf_str fetag line) (val, tag) = (val, tag) := by
    rcases hh : sscanf_str fetag line with _ | _ | t
    · exact apply_field_nomatch _ _
    all_goals
      have hm : line_rank line = .VINE_FOUND_ETAG := by
        rw [line_rank, if_neg hmd5f, if_pos]
        rw [(fires_true_iff fetag line).mpr (by rw [hh]; simp), Bool.or_true]
      rw [hm] at h
      exact apply_field_of_ge _ _ _ (Nat.le_of_lt h)
  have hL1 : apply_field .VINE_FOUND_LAST_MODIFIED (sscanf_str fLastModified line) (val, tag) = (val, tag) := by
    rcases hh : sscanf_str fLastModified line with _ | _ | t
    · exact apply_field_nomatch _ _
    all_goals
      have hor : (fires fLastModified line || fires flastmodified line) = true := by
        rw [(fires_true_iff fLastModified line).mpr (by rw [hh]; simp), Bool.true_or]
      have hm : rank .VINE_FOUND_LAST_MODIFIED ≤ rank (line_rank line) := by
        rw [line_rank, if_neg hmd5f]
        split_ifs with hc2 <;> decide
      have h1v : rank .VINE_FOUND_LAST_MODIFIED < rank val := lt_of_le_of_lt hm h
      exact apply_field_of_ge _ _ _ (Nat.le_of_lt h1v)
  have hL2 : apply_field .VINE_FOUND_LAST_MODIFIED (sscanf_str flastmodified line) (val, tag) = (val, tag) := by
    rcases hh : sscanf_str flastmodified line with _ | _ | t
    · exact apply_field_nomatch _ _
    all_goals
      have hor : (fires fLastModified line || fires flastmodified line) = true := by
        rw [(fires_true_iff flastmodified line).mpr (by rw [hh]; simp), Bool.or_true]
      have hm : rank .VINE_FOUND_LAST_MODIFIED ≤ rank (line_rank line) := by
        rw [line_rank, if_neg hmd5f]
        split_ifs with hc2 <;> decide
      have h1v : rank .VINE_FOUND_LAST_MODIFIED < rank val := lt_of_le_of_lt hm h
      exact apply_field_of_ge _ _ _ (Nat.le_of_lt h1v)
  simp only [scan_line, h1, h2, hE1, hE2, hL1, hL2]

/-- The cons equation for the best field of a header sequence. -/
theorem headers_best_cons (l : Str) (ls : List Str) :
    headers_best (l :: ls) = vmax (line_rank l) (headers_best ls) := rfl

/-- The value produced by the whole scan is the priority maximum of the
best field over the lines and the starting value. -/
theorem scan_headers_fst (lines : List Str) (val : vine_url_cache_t) (tag : Str) :
    (scan_headers lines val tag).1 = vmax (headers_best lines) val := by
  induction lines generalizing val tag with
  | nil => simp [scan_headers, headers_best, vmax_none]
  | cons l ls ih =>
    rcases hsl : scan_line val tag l with ⟨v, t, brk⟩
    have hv : v = vmax (line_rank l) val := by
      have hf := scan_line_fst val tag l
      rw [hsl] at hf
      exact hf
    cases brk with
    | true =>
      have hbrk : line_rank l = .VINE_FOUND_MD5 := by
        have hb := scan_line_break val tag l
        rw [hsl] at hb
        exact hb.mp rfl
      simp only [scan_headers, hsl, headers_best_cons]
      rw [hv, hbrk]
      simp [vmax_md5]
    | false =>
      simp only [scan_headers, hsl, headers_best_cons]
      rw [ih, hv, vmax_assoc, vmax_comm (headers_best ls) (line_rank l)]

/-- C1 counterexample: the header scan is not case-insensitive.  The line
"Etag: v1" names the entity-tag field up to letter case (its first five
characters lowercase to the same text as the accepted lowercase spelling),
yet neither accepted spelling matches it, the scan of this single line
records nothing, and the resulting cached name carries the url-md5-url
token computed from the address alone instead of url-md5-et. -/
theorem c1_case_sensitive_counterexample :
    ("Etag: v1".data.take 5).map Char.toLower = fetag.map Char.toLower ∧
    sscanf_str fETag "Etag: v1".data = .no_match ∧
    sscanf_str fetag "Etag: v1".data = .no_match ∧
    (scan_headers ["Etag: v1".data] .VINE_FOUND_NONE []).1 = .VINE_FOUND_NONE ∧
    vine_cached_name collabEx fileUrlEx [] ["Etag: v1".data] true []
      = some ("url-md5-url-".data ++ collabEx.md5_string "http://a".data) := by
  decide

/-- C1 (amended): the URL resolver scans the returned header lines for the
three identity fields, each recognized in its canonical spelling or its
all-lowercase spelling (not case-insensitively), in strict priority order:
content hash outranks entity tag outranks last-modified.  The scan never
downgrades (the value's rank never decreases at a line), a lower-priority
field seen after a higher-priority one is ignored outright, a
higher-priority field found later overwrites a lower one, and a recognized
content-hash token is taken verbatim and stops the scan.  The final value
is the best field over all lines, and the cached name carries
url-md5-content with the reported hash as the verbatim suffix when a
content hash is present, url-md5-et when an ETag (and possibly a
Last-Modified) is the best field, and url-md5-lm when only Last-Modified
is present. -/
theorem c1_header_scan_hierarchy (C : Collab) (f : vine_file) (cookie tag0 tag line : Str)
    (headers : List Str) (val : vine_url_cache_t)
    (hty : f.type = .VINE_URL) (hnf : ¬ f.source.take 7 = "file://".data) :
    rank val ≤ rank (scan_line val tag line).1 ∧
    (rank (line_rank line) < rank val → scan_line val tag line = (val, tag, false)) ∧
    (rank val < rank (line_rank line) → (scan_line val tag line).1 = line_rank line) ∧
    (∀ t, sscanf_str fContentMD5 line = .match_tok t →
      scan_line val tag line = (.VINE_FOUND_MD5, t, true)) ∧
    (scan_headers headers .VINE_FOUND_NONE tag0).1 = headers_best headers ∧
    (headers_best headers = .VINE_FOUND_MD5 →
      vine_cached_name C f cookie headers true tag0 =
        some ("url-md5-content-".data ++ (scan_headers headers .VINE_FOUND_NONE tag0).2)) ∧
    (headers_best headers = .VINE_FOUND_ETAG →
      vine_cached_name C f cookie headers true tag0 =
        some ("url-md5-et-".data ++
          C.md5_string (fmt2 f.source (scan_headers headers .VINE_FOUND_NONE tag0).2))) ∧
    (headers_best headers = .VINE_FOUND_LAST_MODIFIED →
      vine_cached_name C f cookie headers true tag0 =
        some ("url-md5-lm-".data ++
          C.md5_string (fmt2 f.source (scan_headers headers .VINE_FOUND_NONE tag0).2))) := by
  have hshf := scan_headers_fst headers .VINE_FOUND_NONE tag0
  rw [vmax_none_right] at hshf
  refine ⟨?_, scan_line_lower val tag line, ?_, ?_, hshf, ?_, ?_, ?_⟩
  · rw [scan_line_fst]
    exact rank_le_vmax _ _
  · intro hlt
    rw [scan_line_fst]
    exact vmax_of_gt _ _ hlt
  · intro t ht
    simp [scan_line, ht]
  · intro hb
    rcases hp : scan_headers headers .VINE_FOUND_NONE tag0 with ⟨v, tg⟩
    rw [hp] at hshf
    have hv : v = .VINE_FOUND_MD5 := hshf.trans hb
    subst hv
    simp only [vine_cached_name, hty, make_url_cached_name, get_url_properties, if_neg hnf, hp]
    rfl
  · intro hb
    rcases hp : scan_headers headers .VINE_FOUND_NONE tag0 with ⟨v, tg⟩
    rw [hp] at hshf
    have hv : v = .VINE_FOUND_ETAG := hshf.trans hb
    subst hv
    simp only [vine_cached_name, hty, make_url_cached_name, get_url_properties, if_neg hnf, hp]
    rfl
  · intro hb
    rcases hp : scan_headers headers .VINE_FOUND_NONE tag0 with ⟨v, tg⟩
    rw [hp] at hshf
    have hv : v = .VINE_FOUND_LAST_MODIFIED := hshf.trans hb
    subst hv
    simp only [vine_cached_name, hty, make_url_cached_name, get_url_properties, if_neg hnf, hp]
    rfl

/-- C1 witness: on a synthetic header set carrying a Last-Modified line
followed by an ETag line, the name carries the url-md5-et token. -/
theorem c1_header_scan_hierarchy_witness :
    vine_cached_name collabEx fileUrlEx [] ["Last-Modified: t1".data, "ETag: e1".data] true [] =
      some ("url-md5-et-".data ++
        collabEx.md5_string (fmt2 fileUrlEx.source
          (scan_headers ["Last-Modified: t1".data, "ETag: e1".data] .VINE_FOUND_NONE []).2)) :=
  (c1_header_scan_hierarchy collabEx fileUrlEx [] [] [] "x".data
      ["Last-Modified: t1".data, "ETag: e1".data] .VINE_FOUND_NONE rfl
      (by decide)).2.2.2.2.2.2.1 (by decide)

/-- C2 counterexample: the EMPTY_DIR cached name is the bare string
"empty", which contains no dash at all, so it is not of the claimed shape
<scheme>-<hash-or-token>, and a consumer cannot split it on a first dash. -/
theorem c2_empty_shape_counterexample :
    vine_cached_name collabEx fileEmptyEx [] [] true [] = some "empty".data ∧
    '-' ∉ "empty".data := by
  exact ⟨rfl, by decide⟩

/-- C2 (amended): every cached name is either the literal "empty" (for an
empty directory) or of the shape <scheme>-<suffix>, with the scheme token
one of file-md5, file-rnd, task-md5, url-md5-url, url-md5-lm, url-md5-et,
url-md5-content, temp-rnd, buffer-md5 or buffer-rnd; splitting a dashed
name on the first dash recovers the source-family token (file, task, url,
temp or buffer), not the full scheme, while the full scheme token before
the second (or for URLs third) dash identifies the producing strategy. -/
theorem c2_name_shape (C : Collab) (f : vine_file) (cookie tag0 : Str) (headers : List Str)
    (fetchOk : Bool) (n : Str)
    (h : vine_cached_name C f cookie headers fetchOk tag0 = some n) :
    (n = "empty".data ∨ ∃ s ∈ scheme_tokens, ∃ rest, n = s ++ '-' :: rest) ∧
    ((n = "empty".data ∧ '-' ∉ n) ∨
      ∃ fam ∈ family_tokens, ∃ rest, '-' ∉ fam ∧ n = fam ++ '-' :: rest) := by
  obtain ⟨ty, src, dat, mt, cn⟩ := f
  cases ty
  case VINE_FILE =>
    rcases hcs : C.vine_checksum_any src with _ | hs
    · simp only [vine_cached_name, hcs] at h
      obtain rfl := Option.some.inj h
      constructor
      · exact Or.inr ⟨"file-rnd".data, by decide, cookie, rfl⟩
      · exact Or.inr ⟨"file".data, by decide, "rnd-".data ++ cookie, by decide, rfl⟩
    · simp only [vine_cached_name, hcs] at h
      obtain rfl := Option.some.inj h
      constructor
      · exact Or.inr ⟨"file-md5".data, by decide, hs, rfl⟩
      · exact Or.inr ⟨"file".data, by decide, "md5-".data ++ hs, by decide, rfl⟩
  case VINE_EMPTY_DIR =>
    simp only [vine_cached_name] at h
    obtain rfl := Option.some.inj h
    exact ⟨Or.inl rfl, Or.inl ⟨rfl, by decide⟩⟩
  case VINE_MINI_TASK =>
    simp only [vine_cached_name] at h
    obtain rfl := Option.some.inj h
    constructor
    · exact Or.inr ⟨"task-md5".data, by decide, _, rfl⟩
    · exact Or.inr ⟨"task".data, by decide, "md5-".data ++ _, by decide, rfl⟩
  case VINE_URL =>
    simp only [vine_cached_name] at h
    rcases hmk : make_url_cached_name C ⟨.VINE_URL, src, dat, mt, cn⟩ headers fetchOk tag0 with _ | u
    · rw [hmk] at h
      simp at h
    · rw [hmk] at h
      simp only [Option.map_some'] at h
      obtain rfl := Option.some.inj h
      rcases hgp : get_url_properties C src headers fetchOk tag0 with _ | ⟨v, tg⟩
      · rw [make_url_cached_name] at hmk
        simp only [hgp] at hmk
        exact absurd hmk (by simp)
      · rw [make_url_cached_name] at hmk
        simp only [hgp] at hmk
        cases v
        case VINE_FOUND_NONE =>
          obtain rfl := (Option.some.inj hmk).symm
          constructor
          · exact Or.inr ⟨"url-md5-url".data, by decide, C.md5_string src, rfl⟩
          · exact Or.inr ⟨"url".data, by decide, "md5-url-".data ++ C.md5_string src, by decide, rfl⟩
        case VINE_FOUND_LAST_MODIFIED =>
          obtain rfl := (Option.some.inj hmk).symm
          constructor
          · exact Or.inr ⟨"url-md5-lm".data, by decide, _, rfl⟩
          · exact Or.inr ⟨"url".data, by decide, "md5-lm-".data ++ _, by decide, rfl⟩
        case VINE_FOUND_ETAG =>
          obtain rfl := (Option.some.inj hmk).symm
          constructor
          · exact Or.inr ⟨"url-md5-et".data, by decide, _, rfl⟩
          · exact Or.inr ⟨"url".data, by decide, "md5-et-".data ++ _, by decide, rfl⟩
        case VINE_FOUND_MD5 =>
          obtain rfl := (Option.some.inj hmk).symm
          constructor
          · exact Or.inr ⟨"url-md5-content".data, by decide, tg, rfl⟩
          · exact Or.inr ⟨"url".data, by decide, "md5-content-".data ++ tg, by decide, rfl⟩
  case VINE_TEMP =>
    simp only [vine_cached_name] at h
    obtain rfl := Option.some.inj h
    constructor
    · exact Or.inr ⟨"temp-rnd".data, by decide, cookie, rfl⟩
    · exact Or.inr ⟨"temp".data, by decide, "rnd-".data ++ cookie, by decide, rfl⟩
  case VINE_BUFFER =>
    cases dat
    case none =>
      simp only [vine_cached_name] at h
      obtain rfl := Option.some.inj h
      constructor
      · exact Or.inr ⟨"buffer-rnd".data, by decide, cookie, rfl⟩
      · exact Or.inr ⟨"buffer".data, by decide, "rnd-".data ++ cookie, by decide, rfl⟩
    case some d =>
      simp only [vine_cached_name] at h
      obtain rfl := Option.some.inj h
      constructor
      · exact Or.inr ⟨"buffer-md5".data, by decide, C.md5_string d, rfl⟩
      · exact Or.inr ⟨"buffer".data, by decide, "md5-".data ++ C.md5_string d, by decide, rfl⟩

/-- C2 witness: a readable local file yields a name of scheme file-md5
whose first dash segment is the family token "file". -/
theorem c2_name_shape_witness :
    ("file-md5-cgood".data = "empty".data ∨
      ∃ s ∈ scheme_tokens, ∃ rest, "file-md5-cgood".data = s ++ '-' :: rest) ∧
    (("file-md5-cgood".data = "empty".data ∧ '-' ∉ "file-md5-cgood".data) ∨
      ∃ fam ∈ family_tokens, ∃ rest, '-' ∉ fam ∧ "file-md5-cgood".data = fam ++ '-' :: rest) :=
  c2_name_shape collabEx fileGoodEx [] [] [] true "file-md5-cgood".data (by decide)

/-- C3: a local path whose content checksum succeeds is named
file-md5-<hash>; a missing or unreadable path degrades, without failing,
to the randomized token file-rnd-<cookie>; a populated buffer is named
buffer-md5-<hash of its bytes>; an unpopulated buffer degrades to
buffer-rnd-<cookie>. -/
theorem c3_local_buffer_fallback (C : Collab) (f g : vine_file) (cookie tag0 : Str)
    (headers : List Str) (fetchOk : Bool)
    (hf : f.type = .VINE_FILE) (hg : g.type = .VINE_BUFFER) :
    (∀ h, C.vine_checksum_any f.source = some h →
      vine_cached_name C f cookie headers fetchOk tag0 = some ("file-md5-".data ++ h)) ∧
    (C.vine_checksum_any f.source = none →
      vine_cached_name C f cookie headers fetchOk tag0 = some ("file-rnd-".data ++ cookie)) ∧
    (∀ d, g.data = some d →
      vine_cached_name C g cookie headers fetchOk tag0 =
        some ("buffer-md5-".data ++ C.md5_string d)) ∧
    (g.data = none →
      vine_cached_name C g cookie headers fetchOk tag0 = some ("buffer-rnd-".data ++ cookie)) := by
  refine ⟨?_, ?_, ?_, ?_⟩
  · intro h hcs
    simp [vine_cached_name, hf, hcs]
  · intro hcs
    simp [vine_cached_name, hf, hcs]
  · intro d hd
    simp [vine_cached_name, hg, hd]
  · intro hd
    simp [vine_cached_name, hg, hd]

/-- C3 witness: an unreadable local path gets the randomized fallback name
built from the sixteen-character cookie. -/
theorem c3_local_buffer_fallback_witness :
    vine_cached_name collabEx fileBadEx "R0123456789ABCDE".data [] true [] =
      some ("file-rnd-".data ++ "R0123456789ABCDE".data) :=
  (c3_local_buffer_fallback collabEx fileBadEx fileBufEx "R0123456789ABCDE".data [] [] true
    rfl rfl).2.1 (by decide)

/-- C4: when the header fetch completes with a non-zero status, the
resolver does not abort: whatever fields were seen in the partial output,
the value degrades to VINE_FOUND_NONE and the cached name is
url-md5-url-<hash(address)>, computed from the URL string alone. -/
theorem c4_failed_fetch_url_name (C : Collab) (f : vine_file) (cookie tag0 : Str)
    (headers : List Str)
    (hty : f.type = .VINE_URL) (hnf : ¬ f.source.take 7 = "file://".data) :
    vine_cached_name C f cookie headers false tag0 =
      some ("url-md5-url-".data ++ C.md5_string f.source) := by
  rcases hp : scan_headers headers .VINE_FOUND_NONE tag0 with ⟨v, tg⟩
  simp only [vine_cached_name, hty, make_url_cached_name, get_url_properties, if_neg hnf, hp]
  rfl

/-- C4 witness: with a Content-MD5 line in the partial output but a failed
fetch, the name still falls back to the URL hash. -/
theorem c4_failed_fetch_url_name_witness :
    vine_cached_name collabEx fileUrlEx [] ["Content-MD5: m1".data] false [] =
      some ("url-md5-url-".data ++ collabEx.md5_string fileUrlEx.source) :=
  c4_failed_fetch_url_name collabEx fileUrlEx [] [] ["Content-MD5: m1".data] rfl (by decide)

/-- C5: naming is idempotent.  For every descriptor outside the three
randomized fallback branches the name does not depend on the drawn random
cookie, so two calls on logically-identical descriptors agree; and the
memoizing wrapper returns the stored name on a second call on the same
descriptor instance, whatever fresh cookie, header fetch outcome, or tag
buffer the second call sees, rather than drawing a fresh random token. -/
theorem c5_idempotent_naming (C : Collab) (f f1 : vine_file) (c1 c2 c3 n tag0 tag1 : Str)
    (headers headers2 : List Str) (fetchOk fetchOk2 : Bool) :
    (¬ randomized_path C f →
      vine_cached_name C f c1 headers fetchOk tag0 =
        vine_cached_name C f c2 headers fetchOk tag0) ∧
    (vine_file_get_cached_name C f c1 headers fetchOk tag0 = (f1, some n) →
      vine_file_get_cached_name C f1 c3 headers2 fetchOk2 tag1 = (f1, some n)) := by
  constructor
  · intro hnr
    obtain ⟨ty, src, dat, mt, cn⟩ := f
    cases ty
    case VINE_FILE =>
      rcases hcs : C.vine_checksum_any src with _ | hs
      · exact absurd (Or.inl ⟨rfl, hcs⟩) hnr
      · simp [vine_cached_name, hcs]
    case VINE_EMPTY_DIR => rfl
    case VINE_MINI_TASK => rfl
    case VINE_URL => rfl
    case VINE_TEMP => exact absurd (Or.inr (Or.inl rfl)) hnr
    case VINE_BUFFER =>
      cases dat
      case none => exact absurd (Or.inr (Or.inr ⟨rfl, rfl⟩)) hnr
      case some d => simp [vine_cached_name]
  · intro hcall
    rcases hcn : f.cached_name with _ | m
    · simp only [vine_file_get_cached_name, hcn] at hcall
      rcases hvc : vine_cached_name C f c1 headers fetchOk tag0 with _ | m2
      · rw [hvc] at hcall
        exact absurd (congrArg Prod.snd hcall) (by simp)
      · rw [hvc] at hcall
        obtain ⟨hf1, hn⟩ := Prod.mk.inj hcall
        obtain rfl := hf1
        obtain rfl := Option.some.inj hn
        simp [vine_file_get_cached_name]
    · simp only [vine_file_get_cached_name, hcn] at hcall
      obtain ⟨hf1, hn⟩ := Prod.mk.inj hcall
      obtain rfl := hf1
      obtain rfl := Option.some.inj hn
      simp [vine_file_get_cached_name, hcn]

/-- C5 witness: a second wrapper call on a temporary-file descriptor that
already holds a name returns the stored value under a different cookie,
fetch outcome and tag buffer. -/
theorem c5_idempotent_naming_witness :
    vine_file_get_cached_name collabEx fileTempNamedEx "ZZZZZZZZZZZZZZZZ".data [] false [] =
      (fileTempNamedEx, some "temp-rnd-R0123456789ABCDE".data) :=
  (c5_idempotent_naming collabEx fileTempEx fileTempNamedEx "R0123456789ABCDE".data []
    "ZZZZZZZZZZZZZZZZ".data "temp-rnd-R0123456789ABCDE".data [] [] [] [] true false).2
    (by decide)

/-- C6: a mini-task output is named task-md5-<hash(task json ++ ":" ++
output name)>.  Whenever the byte hash is injective, two mini-task sources
with identical canonical task text and identical output name share the
name, while changing the output name under a fixed task text, or the task
text under a fixed output name, changes the name. -/
theorem c6_mini_task_identity (C : Collab) (f1 f2 : vine_file) (cookie tag0 : Str)
    (headers : List Str) (fetchOk : Bool)
    (hinj : Function.Injective C.md5_string)
    (h1 : f1.type = .VINE_MINI_TASK) (h2 : f2.type = .VINE_MINI_TASK) :
    vine_cached_name C f1 cookie headers fetchOk tag0 =
      some ("task-md5-".data ++
        C.md5_string (C.vine_task_to_json f1.mini_task ++ ':' :: f1.source)) ∧
    (C.vine_task_to_json f1.mini_task = C.vine_task_to_json f2.mini_task → f1.source = f2.source →
      vine_cached_name C f1 cookie headers fetchOk tag0 =
        vine_cached_name C f2 cookie headers fetchOk tag0) ∧
    (C.vine_task_to_json f1.mini_task = C.vine_task_to_json f2.mini_task → f1.source ≠ f2.source →
      vine_cached_name C f1 cookie headers fetchOk tag0 ≠
        vine_cached_name C f2 cookie headers fetchOk tag0) ∧
    (f1.source = f2.source → C.vine_task_to_json f1.mini_task ≠ C.vine_task_to_json f2.mini_task →
      vine_cached_name C f1 cookie headers fetchOk tag0 ≠
        vine_cached_name C f2 cookie headers fetchOk tag0) := by
  have hn1 : vine_cached_name C f1 cookie headers fetchOk tag0 =
      some ("task-md5-".data ++
        C.md5_string (C.vine_task_to_json f1.mini_task ++ ':' :: f1.source)) := by
    simp [vine_cached_name, h1, make_mini_task_cached_name]
  have hn2 : vine_cached_name C f2 cookie headers fetchOk tag0 =
      some ("task-md5-".data ++
        C.md5_string (C.vine_task_to_json f2.mini_task ++ ':' :: f2.source)) := by
    simp [vine_cached_name, h2, make_mini_task_cached_name]
  refine ⟨hn1, ?_, ?_, ?_⟩
  · intro hj hs
    rw [hn1, hn2, hj, hs]
  · intro hj hs hcontra
    rw [hn1, hn2] at hcontra
    have hz := hinj (List.append_cancel_left (Option.some.inj hcontra))
    rw [hj] at hz
    have hc := List.append_cancel_left hz
    exact hs (List.cons.inj hc).2
  · intro hs hj hcontra
    rw [hn1, hn2] at hcontra
    have hz := hinj (List.append_cancel_left (Option.some.inj hcontra))
    rw [hs] at hz
    exact hj (List.append_cancel_right hz)

/-- C6 witness: two mini-task sources with the same task but different
output names receive different names. -/
theorem c6_mini_task_identity_witness :
    vine_cached_name collabEx fileTaskEx [] [] true [] ≠
      vine_cached_name collabEx fileTaskEx2 [] [] true [] :=
  (c6_mini_task_identity collabEx fileTaskEx fileTaskEx2 [] [] [] true
    (fun a b hab => (List.cons.inj hab).2) rfl rfl).2.2.1 rfl (by decide)

/-- C7: the identity function hashes the already-resolved cached name
followed by the locator (the empty string standing for an absent locator)
and refuses, by the failed assertion, a descriptor whose cached name has
not yet been produced. -/
theorem c7_file_identity (C : Collab) (f : vine_file) :
    (∀ cn, f.cached_name = some cn →
      vine_file_id C f = some (C.md5_string (cn ++ f.source))) ∧
    (f.cached_name = none → vine_file_id C f = none) := by
  constructor
  · intro cn hcn
    simp [vine_file_id, hcn]
  · intro hcn
    simp [vine_file_id, hcn]

/-- C7 witness: a descriptor holding a resolved cached name gets the hash
of that name followed by its source. -/
theorem c7_file_identity_witness :
    vine_file_id collabEx fileNamedEx =
      some (collabEx.md5_string ("file-md5-cgood".data ++ fileNamedEx.source)) :=
  (c7_file_identity collabEx fileNamedEx).1 "file-md5-cgood".data rfl

/-- C8: a URL using the file:// transport bypasses the header fetch
entirely (the result does not depend on the header lines or the fetch
status) and reports the content-hash method with the direct checksum of
the referenced local path, so the cached name is url-md5-content-<hash>. -/
theorem c8_file_url_bypass (C : Collab) (f : vine_file) (p h cookie tag0 : Str)
    (headers : List Str) (fetchOk : Bool)
    (hty : f.type = .VINE_URL) (hsrc : f.source = "file://".data ++ p)
    (hsum : C.vine_checksum_any p = some h) :
    get_url_properties C f.source headers fetchOk tag0 = some (.VINE_FOUND_MD5, h) ∧
    vine_cached_name C f cookie headers fetchOk tag0 =
      some ("url-md5-content-".data ++ h) := by
  have htake : f.source.take 7 = "file://".data := by
    rw [hsrc, show (7:Nat) = "file://".data.length from rfl, List.take_left]
  have hdrop : f.source.drop 7 = p := by
    rw [hsrc, show (7:Nat) = "file://".data.length from rfl, List.drop_left]
  have hgp : get_url_properties C f.source headers fetchOk tag0 =
      some (.VINE_FOUND_MD5, h) := by
    simp only [get_url_properties, if_pos htake, hdrop, hsum]
  refine ⟨hgp, ?_⟩
  simp only [vine_cached_name, hty, make_url_cached_name, hgp]
  rfl

/-- C8 witness: a file:// URL over a readable path is named from its
direct checksum whatever header lines or fetch status are supplied. -/
theorem c8_file_url_bypass_witness :
    vine_cached_name collabEx fileUrlFileEx [] ["ETag: e1".data] false [] =
      some ("url-md5-content-".data ++ ('c' :: "good".data)) :=
  (c8_file_url_bypass collabEx fileUrlFileEx "good".data ('c' :: "good".data) [] []
    ["ETag: e1".data] false rfl rfl (by decide)).2

/-- The shape of every cached name produced outside the randomized
fallback branches. -/
theorem det_name_shape (C : Collab) (f : vine_file) (cookie tag0 : Str) (headers : List Str)
    (fetchOk : Bool) (n : Str)
    (hd : ¬ randomized_path C f)
    (e : vine_cached_name C f cookie headers fetchOk tag0 = some n) :
    (∃ h, n = "file-md5-".data ++ h) ∨ n = "empty".data ∨
    (∃ h, n = "task-md5-".data ++ h) ∨ (∃ u, n = "url-".data ++ u) ∨
    (∃ h, n = "buffer-md5-".data ++ h) := by
  obtain ⟨ty, src, dat, mt, cn⟩ := f
  cases ty
  case VINE_FILE =>
    rcases hcs : C.vine_checksum_any src with _ | hs
    · exact absurd (Or.inl ⟨rfl, hcs⟩) hd
    · simp only [vine_cached_name, hcs] at e
      exact Or.inl ⟨hs, (Option.some.inj e).symm⟩
  case VINE_EMPTY_DIR =>
    simp only [vine_cached_name] at e
    exact Or.inr (Or.inl (Option.some.inj e).symm)
  case VINE_MINI_TASK =>
    simp only [vine_cached_name] at e
    exact Or.inr (Or.inr (Or.inl ⟨_, (Option.some.inj e).symm⟩))
  case VINE_URL =>
    simp only [vine_cached_name] at e
    rcases hmk : make_url_cached_name C ⟨.VINE_URL, src, dat, mt, cn⟩ headers fetchOk tag0 with _ | u
    · rw [hmk] at e
      simp at e
    · rw [hmk] at e
      simp only [Option.map_some'] at e
      exact Or.inr (Or.inr (Or.inr (Or.inl ⟨u, (Option.some.inj e).symm⟩)))
  case VINE_TEMP => exact absurd (Or.inr (Or.inl rfl)) hd
  case VINE_BUFFER =>
    cases dat
    case none => exact absurd (Or.inr (Or.inr ⟨rfl, rfl⟩)) hd
    case some d =>
      simp only [vine_cached_name] at e
      exact Or.inr (Or.inr (Or.inr (Or.inr ⟨_, (Option.some.inj e).symm⟩)))

/-- C9: a name produced by a randomized fallback path always carries one
of the *-rnd- scheme tokens, the deterministic paths never produce such a
token, and consequently a fallback name is never equal to a name produced
by a deterministic path, whatever collaborators, cookies and header
environments the two calls saw. -/
theorem c9_rnd_det_disjoint (K1 K2 : Collab) (f1 f2 : vine_file) (c1 c2 t01 t02 n1 n2 : Str)
    (hs1 hs2 : List Str) (fo1 fo2 : Bool)
    (hr : randomized_path K1 f1) (hd : ¬ randomized_path K2 f2)
    (e1 : vine_cached_name K1 f1 c1 hs1 fo1 t01 = some n1)
    (e2 : vine_cached_name K2 f2 c2 hs2 fo2 t02 = some n2) :
    n1 ≠ n2 ∧
    (n1 = "file-rnd-".data ++ c1 ∨ n1 = "temp-rnd-".data ++ c1 ∨
      n1 = "buffer-rnd-".data ++ c1) := by
  have hshape := det_name_shape K2 f2 c2 t02 hs2 fo2 n2 hd e2
  have hn1 : n1 = "file-rnd-".data ++ c1 ∨ n1 = "temp-rnd-".data ++ c1 ∨
      n1 = "buffer-rnd-".data ++ c1 := by
    rcases hr with ⟨hty, hcs⟩ | hty | ⟨hty, hdat⟩
    · left
      simp only [vine_cached_name, hty, hcs] at e1
      exact (Option.some.inj e1).symm
    · right; left
      simp only [vine_cached_name, hty] at e1
      exact (Option.some.inj e1).symm
    · right; right
      simp only [vine_cached_name, hty, hdat] at e1
      exact (Option.some.inj e1).symm
  refine ⟨?_, hn1⟩
  rcases hn1 with h1 | h1 | h1 <;>
    rcases hshape with ⟨x, h2⟩ | h2 | ⟨x, h2⟩ | ⟨x, h2⟩ | ⟨x, h2⟩ <;>
      rw [h1, h2]
  · exact ne_of_take_ne _ _ _ _ 9 (by decide) (by decide) (by decide)
  · rw [← List.append_nil "empty".data]
    exact ne_of_take_ne _ _ _ _ 5 (by decide) (by decide) (by decide)
  · exact ne_of_take_ne _ _ _ _ 9 (by decide) (by decide) (by decide)
  · exact ne_of_take_ne _ _ _ _ 4 (by decide) (by decide) (by decide)
  · exact ne_of_take_ne _ _ _ _ 9 (by decide) (by decide) (by decide)
  · exact ne_of_take_ne _ _ _ _ 4 (by decide) (by decide) (by decide)
  · rw [← List.append_nil "empty".data]
    exact ne_of_take_ne _ _ _ _ 5 (by decide) (by decide) (by decide)
  · exact ne_of_take_ne _ _ _ _ 9 (by decide) (by decide) (by decide)
  · exact ne_of_take_ne _ _ _ _ 4 (by decide) (by decide) (by decide)
  · exact ne_of_take_ne _ _ _ _ 4 (by decide) (by decide) (by decide)
  · exact ne_of_take_ne _ _ _ _ 4 (by decide) (by decide) (by decide)
  · rw [← List.append_nil "empty".data]
    exact ne_of_take_ne _ _ _ _ 5 (by decide) (by decide) (by decide)
  · exact ne_of_take_ne _ _ _ _ 4 (by decide) (by decide) (by decide)
  · exact ne_of_take_ne _ _ _ _ 3 (by decide) (by decide) (by decide)
  · exact ne_of_take_ne _ _ _ _ 11 (by decide) (by decide) (by decide)

/-- C9 witness: the randomized name of a temporary file differs from the
deterministic name of a readable local file. -/
theorem c9_rnd_det_disjoint_witness :
    ("temp-rnd-R0123456789ABCDE".data : Str) ≠ "file-md5-cgood".data :=
  (c9_rnd_det_disjoint collabEx collabEx fileTempEx fileGoodEx "R0123456789ABCDE".data
    "Q0123456789ABCDE".data [] [] "temp-rnd-R0123456789ABCDE".data "file-md5-cgood".data
    [] [] true true (Or.inr (Or.inl rfl)) (by unfold randomized_path; decide)
    (by decide) (by decide)).1

/-- C10: in the file:// branch of the URL resolver the checksum result is
copied into the tag buffer without a null check.  Under the precondition
that the referenced path is checksummable, the null branch is unreachable
and the branch is total, returning the content hash; when the path cannot
be checksummed, the copy is undefined behavior (modeled as `none`) instead
of degrading, although an unreadable plain local file does degrade to the
file-rnd fallback. -/
theorem c10_file_url_unchecked (C : Collab) (url p cookie tag0 : Str) (headers : List Str)
    (fetchOk : Bool) (g : vine_file)
    (hurl : url = "file://".data ++ p) (hg : g.type = .VINE_FILE) :
    (∀ h, C.vine_checksum_any p = some h →
      get_url_properties C url headers fetchOk tag0 = some (.VINE_FOUND_MD5, h)) ∧
    (C.vine_checksum_any p = none →
      get_url_properties C url headers fetchOk tag0 = none) ∧
    (C.vine_checksum_any g.source = none →
      vine_cached_name C g cookie headers fetchOk tag0 =
        some ("file-rnd-".data ++ cookie)) := by
  have htake : url.take 7 = "file://".data := by
    rw [hurl, show (7:Nat) = "file://".data.length from rfl, List.take_left]
  have hdrop : url.drop 7 = p := by
    rw [hurl, show (7:Nat) = "file://".data.length from rfl, List.drop_left]
  refine ⟨?_, ?_, ?_⟩
  · intro h hs
    simp only [get_url_properties, if_pos htake, hdrop, hs]
  · intro hs
    simp only [get_url_properties, if_pos htake, hdrop, hs]
  · intro hs
    simp [vine_cached_name, hg, hs]

/-- C10 witness: a file:// URL over an unreadable path reaches the
undefined copy, while the same unreadable path as a plain local file
degrades to the randomized fallback. -/
theorem c10_file_url_unchecked_witness :
    get_url_properties collabEx "file://bad".data [] true [] = none ∧
    vine_cached_name collabEx fileBadEx "R0123456789ABCDE".data [] true [] =
      some ("file-rnd-".data ++ "R0123456789ABCDE".data) :=
  ⟨(c10_file_url_unchecked collabEx "file://bad".data "bad".data "R0123456789ABCDE".data []
      [] true fileBadEx rfl rfl).2.1 (by decide),
   (c10_file_url_unchecked collabEx "file://bad".data "bad".data "R0123456789ABCDE".data []
      [] true fileBadEx rfl rfl).2.2 (by decide)⟩

end VineName
